import Mathlib

/-!
Verification of the nostr-mocrelay websocket relay (Go) against its
natural-language specification.

The repository ships two generations of the per-connection handler code:
plain functions (`wsReceiver`, `wsRead`, `serveClientReqMsgJSON`,
`serveClientCloseMsgJSON`, `serveClientEventMsgJSON`) and method versions on
`RelayHandler` (`RelayHandler.serveClientReqMsgJSON`,
`RelayHandler.serveClientEventMsgJSON`), plus two `Run` entry points
(`main.go` with `NewDB(5)`, and the flag-based `Run` using `DBSize` with
default `DefaultDBSize = 10000`).

The embedding is a shallow one: each handler becomes a pure Lean function
from its inputs and an environment of external collaborators (JSON parser,
signature verifier, cache, router, wall clock - none of which are defined in
the sources of the repository) to the ordered list of side-effecting actions
it performs (sink enqueues, cache saves, router calls) together with its
returned Go error (`Option String`, `none` standing for `nil`).
-/

deriving instance DecidableEq for Except

namespace Mocrelay

/-- Stand-in for the external `EventJSON` value (the parsed Nostr event).
The relay code never inspects it, so a single identifying field suffices. -/
structure EventJSON where
  id : Nat
deriving DecidableEq, Repr

/-- `Event` as built by the handlers: `&Event{msg.EventJSON, time.Now()}` /
`NewEvent(msg.EventJSON, time.Now())` - the event JSON paired with the
receive time. -/
structure Event where
  eventJSON : EventJSON
  receivedAt : Int
deriving DecidableEq, Repr

/-- Stand-in for the external `FilterJSON` value; never inspected by the relay code. -/
structure FilterJSON where
  raw : Nat
deriving DecidableEq, Repr

/-- `Filter` wraps a `FilterJSON` (cf. `DefaultFilters = Filters{&Filter{&FilterJSON{...}}}`). -/
structure Filter where
  filterJSON : FilterJSON
deriving DecidableEq, Repr

/-- Modelled from the spec: `NewFiltersFromFilterJSONs` is not among the
repository sources; the spec describes a filter set as the "ordered sequence
of filters" of the REQ, one per filter object, so the conversion is the
one-to-one map wrapping each `FilterJSON` in a `Filter`. -/
def NewFiltersFromFilterJSONs (fjs : List FilterJSON) : List Filter :=
  fjs.map Filter.mk

/-- `MaxFilterLen = 50` (constant in relay.go). -/
def MaxFilterLen : Nat := 50

/-- `DefaultDBSize = 10000` (constant in the flag-based entry point). -/
def DefaultDBSize : Nat := 10000

/-- `DefaultClientMsgLen = 1048576` (constant in the flag-based entry point). -/
def DefaultClientMsgLen : Nat := 1048576

/-- Default value of the `db` flag: `flag.Int("db", DefaultDBSize, "in-memory db size")`. -/
def DBSizeFlagDefault : Nat := DefaultDBSize

/-- Capacity the `main.go` entry point gives the event store: `db := NewDB(5)`.
The spec (§6) documents the first `NewDB` argument as the cache capacity. -/
def mainRunDBCapacity : Nat := 5

/-- Capacity the flag-based `Run` gives the event store:
`db := NewDB(*DBSize, DefaultFilters)` - the value of the `db` flag. -/
def relayRunDBCapacity (dbSizeFlag : Nat) : Nat :=
  dbSizeFlag

/-- Client message sum type (`ClientReqMsgJSON`). -/
structure ClientReqMsgJSON where
  subscriptionID : String
  filterJSONs : List FilterJSON
deriving DecidableEq, Repr

/-- Client message sum type (`ClientCloseMsgJSON`). -/
structure ClientCloseMsgJSON where
  subscriptionID : String
deriving DecidableEq, Repr

/-- Client message sum type (`ClientEventMsgJSON`). -/
structure ClientEventMsgJSON where
  eventJSON : EventJSON
deriving DecidableEq, Repr

/-- The tagged union `ClientMsgJSON` returned by `ParseClientMsgJSON`. -/
inductive ClientMsgJSON where
  | req (msg : ClientReqMsgJSON)
  | close (msg : ClientCloseMsgJSON)
  | event (msg : ClientEventMsgJSON)
deriving DecidableEq, Repr

/-- Outbound server frames (`ServerMsg`): `ServerEventMsg` and `ServerEOSEMsg`. -/
inductive ServerMsg where
  | event (subscriptionID : String) (eventJSON : EventJSON)
  | eose (subscriptionID : String)
deriving DecidableEq, Repr

/-- Modelled from the spec: `NewServerEventMsg` is not among the repository
sources; the spec (§9) gives `ServerMsg = EventFrame{subID, event}`, so it
builds the EVENT frame for the subscription from the stored event. -/
def NewServerEventMsg (subscriptionID : String) (ev : Event) : ServerMsg :=
  ServerMsg.event subscriptionID ev.eventJSON

/-- Modelled from the spec: `NewServerEOSEMsg` is not among the repository
sources; the spec gives `EOSEFrame{subID}`. -/
def NewServerEOSEMsg (subscriptionID : String) : ServerMsg :=
  ServerMsg.eose subscriptionID

/-- One observable side effect of a handler, in program order: an enqueue on
the outbound channel of the connection, a cache save, or a router call. -/
inductive Action where
  | send (msg : ServerMsg)
  | save (ev : Event)
  | publish (ev : Event)
  | subscribe (connID : String) (subscriptionID : String) (filters : List Filter)
  | routerClose (connID : String) (subscriptionID : String)
deriving DecidableEq, Repr

/-- External collaborators of the handlers, none of which are defined in the
sources of the repository: the UTF-8 validity test, `ParseClientMsgJSON`
(composed with `string(payload)`), `DB.FindAll`/`Cache.FindAll`,
`EventJSON.Verify`, `Event.ValidCreatedAt`, the wall clock, and the results
of `Router.Publish`, `Router.Subscribe`, `Router.Close`. Handlers are
parametric in this environment. -/
structure Env where
  maxClientMesLen : Nat
  utf8Valid : List Nat → Bool
  parseClientMsgJSON : List Nat → Except String ClientMsgJSON
  findAll : List Filter → List Event
  verify : EventJSON → Except String Bool
  validCreatedAt : Event → Bool
  now : Int
  publishResult : Event → Option String
  subscribeResult : String → String → Option String
  closeResult : String → String → Option String

/-- Websocket opcodes distinguished by `wsRead` (`hdr.OpCode == ws.OpClose`). -/
inductive OpCode where
  | opClose
  | opText
deriving DecidableEq, Repr

/-- One inbound websocket frame: header opcode plus payload bytes. -/
structure WSFrame where
  opCode : OpCode
  payload : List Nat
deriving DecidableEq, Repr

/-- `wsRead(wsr)`: `limit := *MaxClientMesLen + 1`; a `NextFrame` error is
returned; a close frame yields `io.EOF`; otherwise the payload is read
through `io.LimitReader(wsr, limit)` and when exactly `limit` bytes come
back the message was too long and an error is returned with it. -/
def wsRead (maxClientMesLen : Nat) (nextFrame : Except String WSFrame) :
    Except String (List Nat) :=
  let limit := maxClientMesLen + 1
  match nextFrame with
  | Except.error e => Except.error e
  | Except.ok frame =>
    if frame.opCode = OpCode.opClose then
      Except.error "EOF"
    else
      let res := frame.payload.take limit
      if res.length = limit then
        Except.error "websocket message is too long"
      else
        Except.ok res

/-- `serveClientReqMsgJSON(connID, router, db, sender, msg)`: builds the
filters, rejects when `len(filters) > MaxFilterLen+2`, else enqueues an
EVENT frame per `db.FindAll(filters)` result, then an EOSE frame, then calls
`router.Subscribe` (whose result it does not consult) and returns `nil`. -/
def serveClientReqMsgJSON (env : Env) (connID : String) (msg : ClientReqMsgJSON) :
    List Action × Option String :=
  let filters := NewFiltersFromFilterJSONs msg.filterJSONs
  if MaxFilterLen + 2 < filters.length then
    ([], some "filter is too long")
  else
    ((env.findAll filters).map
        (fun ev => Action.send (ServerMsg.event msg.subscriptionID ev.eventJSON))
      ++ [Action.send (ServerMsg.eose msg.subscriptionID),
          Action.subscribe connID msg.subscriptionID filters],
     none)

/-- `serveClientCloseMsgJSON(connID, router, msg)`: calls `router.Close` and
wraps a failure into an error. -/
def serveClientCloseMsgJSON (env : Env) (connID : String) (msg : ClientCloseMsgJSON) :
    List Action × Option String :=
  match env.closeResult connID msg.subscriptionID with
  | some _ =>
    ([Action.routerClose connID msg.subscriptionID], some "cannot close conn")
  | none =>
    ([Action.routerClose connID msg.subscriptionID], none)

/-- `serveClientEventMsgJSON(router, db, msg)`: verifies the signature
(`Verify` error or `false` aborts with an error before any other effect),
then builds `&Event{msg.EventJSON, time.Now()}`, calls `db.Save(event)`, and
then `router.Publish(event)`, turning a publish failure into an error. -/
def serveClientEventMsgJSON (env : Env) (msg : ClientEventMsgJSON) :
    List Action × Option String :=
  match env.verify msg.eventJSON with
  | Except.error _ => ([], some "failed to verify event json")
  | Except.ok false => ([], some "invalid signature")
  | Except.ok true =>
    let event : Event := ⟨msg.eventJSON, env.now⟩
    let acts := [Action.save event, Action.publish event]
    match env.publishResult event with
    | some _ => (acts, some "failed to publish event")
    | none => (acts, none)

/-- Outcome of one iteration of the `wsReceiver` loop body: either the loop
continues to the next frame (connection stays open) having performed the
listed actions, or the loop returns an error and the connection closes. -/
inductive StepResult where
  | next (actions : List Action)
  | exit (err : String)
deriving DecidableEq, Repr

/-- One iteration of the `wsReceiver` loop body (after the rate-limiter token
is acquired): `wsRead` failure returns from the loop; a non-UTF-8 payload is
logged and skipped; a `ParseClientMsgJSON` failure is logged and skipped;
otherwise the message is dispatched to its serve function, whose error is
logged and the loop continues either way. -/
def wsReceiverStep (env : Env) (connID : String) (nextFrame : Except String WSFrame) :
    StepResult :=
  match wsRead env.maxClientMesLen nextFrame with
  | Except.error e => StepResult.exit e
  | Except.ok payload =>
    if env.utf8Valid payload = false then
      StepResult.next []
    else
      match env.parseClientMsgJSON payload with
      | Except.error _ => StepResult.next []
      | Except.ok (ClientMsgJSON.req msg) =>
        StepResult.next (serveClientReqMsgJSON env connID msg).1
      | Except.ok (ClientMsgJSON.close msg) =>
        StepResult.next (serveClientCloseMsgJSON env connID msg).1
      | Except.ok (ClientMsgJSON.event msg) =>
        StepResult.next (serveClientEventMsgJSON env msg).1

namespace RelayHandler

/-- `NewEvent(eventJSON, time.Now())` as used by the `RelayHandler` version. -/
def NewEvent (eventJSON : EventJSON) (receivedAt : Int) : Event :=
  ⟨eventJSON, receivedAt⟩

/-- `RelayHandler.serveClientReqMsgJSON(r, msg)`: same filter-length guard as
the plain version; enqueues `NewServerEventMsg` per `cache.FindAll` result,
then `NewServerEOSEMsg`, then calls `router.Subscribe` and returns `nil`
whether or not `Subscribe` failed (`if err := ...; err != nil { return nil }`). -/
def serveClientReqMsgJSON (env : Env) (connID : String) (msg : ClientReqMsgJSON) :
    List Action × Option String :=
  let filters := NewFiltersFromFilterJSONs msg.filterJSONs
  if MaxFilterLen + 2 < filters.length then
    ([], some "filter is too long")
  else
    let acts :=
      (env.findAll filters).map
        (fun ev => Action.send (NewServerEventMsg msg.subscriptionID ev))
      ++ [Action.send (NewServerEOSEMsg msg.subscriptionID),
          Action.subscribe connID msg.subscriptionID filters]
    match env.subscribeResult connID msg.subscriptionID with
    | some _ => (acts, none)
    | none => (acts, none)

/-- `RelayHandler.serveClientEventMsgJSON(r, msg)`: verifies the signature,
builds `NewEvent(msg.EventJSON, time.Now())`, rejects when
`!event.ValidCreatedAt()` before any save, else `cache.Save(event)` then
`router.Publish(event)`. -/
def serveClientEventMsgJSON (env : Env) (msg : ClientEventMsgJSON) :
    List Action × Option String :=
  match env.verify msg.eventJSON with
  | Except.error _ => ([], some "failed to verify event json")
  | Except.ok false => ([], some "invalid signature")
  | Except.ok true =>
    let event := NewEvent msg.eventJSON env.now
    if env.validCreatedAt event = false then
      ([], some "invalid created_at")
    else
      let acts := [Action.save event, Action.publish event]
      match env.publishResult event with
      | some _ => (acts, some "failed to publish event")
      | none => (acts, none)

end RelayHandler

/-- Recognizes an EOSE enqueue among the actions of a handler. -/
def isEOSESend (a : Action) : Bool :=
  match a with
  | Action.send (ServerMsg.eose _) => true
  | _ => false

/-- A concrete environment used to instantiate hypothesised theorems. -/
def testEnv : Env where
  maxClientMesLen := 5
  utf8Valid := fun p => !p.contains 255
  parseClientMsgJSON := fun p =>
    match p with
    | [1] => Except.ok (ClientMsgJSON.event ⟨⟨7⟩⟩)
    | [2] => Except.ok (ClientMsgJSON.req ⟨"a", [⟨0⟩]⟩)
    | [4] => Except.ok (ClientMsgJSON.event ⟨⟨9⟩⟩)
    | _ => Except.error "invalid msg"
  findAll := fun _ => [⟨⟨1⟩, 0⟩, ⟨⟨2⟩, 0⟩]
  verify := fun ej =>
    if ej.id = 9 then Except.ok false
    else if ej.id = 11 then Except.error "verify failed"
    else Except.ok true
  validCreatedAt := fun ev => !(ev.eventJSON.id = 7)
  now := 0
  publishResult := fun _ => none
  subscribeResult := fun _ _ => some "too many subscriptions"
  closeResult := fun _ _ => none

example :
    serveClientReqMsgJSON testEnv "c" ⟨"a", [⟨0⟩]⟩ =
      ([Action.send (ServerMsg.event "a" ⟨1⟩),
        Action.send (ServerMsg.event "a" ⟨2⟩),
        Action.send (ServerMsg.eose "a"),
        Action.subscribe "c" "a" [⟨⟨0⟩⟩]], none) := by
  rfl

example :
    wsReceiverStep testEnv "c" (Except.ok ⟨OpCode.opText, [1, 2, 3, 4, 5, 6]⟩) =
      StepResult.exit "websocket message is too long" := by
  rfl

/-- C1: for every REQ accepted by `serveClientReqMsgJSON`, the sink receives
one EVENT frame per `FindAll` result, in `FindAll` order, then the EOSE
frame, and the `Router.Subscribe` call comes after the EOSE enqueue; exactly
one EOSE frame is enqueued. -/
theorem req_replay_then_eose_then_subscribe (env : Env) (connID : String)
    (msg : ClientReqMsgJSON)
    (h : (NewFiltersFromFilterJSONs msg.filterJSONs).length ≤ MaxFilterLen + 2) :
    serveClientReqMsgJSON env connID msg =
      ((env.findAll (NewFiltersFromFilterJSONs msg.filterJSONs)).map
          (fun ev => Action.send (ServerMsg.event msg.subscriptionID ev.eventJSON))
        ++ [Action.send (ServerMsg.eose msg.subscriptionID),
            Action.subscribe connID msg.subscriptionID
              (NewFiltersFromFilterJSONs msg.filterJSONs)],
       none) ∧
    (serveClientReqMsgJSON env connID msg).1.filter isEOSESend =
      [Action.send (ServerMsg.eose msg.subscriptionID)] := by
  have hmain : serveClientReqMsgJSON env connID msg =
      ((env.findAll (NewFiltersFromFilterJSONs msg.filterJSONs)).map
          (fun ev => Action.send (ServerMsg.event msg.subscriptionID ev.eventJSON))
        ++ [Action.send (ServerMsg.eose msg.subscriptionID),
            Action.subscribe connID msg.subscriptionID
              (NewFiltersFromFilterJSONs msg.filterJSONs)],
       none) := by
    simp [serveClientReqMsgJSON, Nat.not_lt.mpr h]
  refine ⟨hmain, ?_⟩
  rw [hmain]
  simp only [List.filter_append, List.filter_map]
  rw [List.filter_eq_nil_iff.mpr (by intro a _; simp [Function.comp, isEOSESend])]
  simp [isEOSESend]

/-- C1 witness: the theorem instantiated at a concrete environment and REQ. -/
theorem req_replay_then_eose_then_subscribe_witness :
    (NewFiltersFromFilterJSONs [⟨0⟩]).length ≤ MaxFilterLen + 2 ∧
    (serveClientReqMsgJSON testEnv "c" ⟨"a", [⟨0⟩]⟩ =
      ((testEnv.findAll (NewFiltersFromFilterJSONs [⟨0⟩])).map
          (fun ev => Action.send (ServerMsg.event "a" ev.eventJSON))
        ++ [Action.send (ServerMsg.eose "a"),
            Action.subscribe "c" "a" (NewFiltersFromFilterJSONs [⟨0⟩])],
       none) ∧
     (serveClientReqMsgJSON testEnv "c" ⟨"a", [⟨0⟩]⟩).1.filter isEOSESend =
       [Action.send (ServerMsg.eose "a")]) :=
  ⟨by decide,
   req_replay_then_eose_then_subscribe testEnv "c" ⟨"a", [⟨0⟩]⟩ (by decide)⟩

/-- C2: an inbound EVENT that passes signature verification is saved to the
cache strictly before it is published to the router: the plain handler
performs exactly `Save` then `Publish`, and so does the `RelayHandler`
version once its `created_at` check passes. -/
theorem event_save_before_publish (env : Env) (msg : ClientEventMsgJSON)
    (h : env.verify msg.eventJSON = Except.ok true) :
    (serveClientEventMsgJSON env msg).1 =
      [Action.save ⟨msg.eventJSON, env.now⟩,
       Action.publish ⟨msg.eventJSON, env.now⟩] ∧
    (env.validCreatedAt (RelayHandler.NewEvent msg.eventJSON env.now) = true →
      (RelayHandler.serveClientEventMsgJSON env msg).1 =
        [Action.save ⟨msg.eventJSON, env.now⟩,
         Action.publish ⟨msg.eventJSON, env.now⟩]) := by
  constructor
  · cases hpub : env.publishResult ⟨msg.eventJSON, env.now⟩ <;>
      simp [serveClientEventMsgJSON, h, hpub]
  · intro hv
    simp only [RelayHandler.NewEvent] at hv
    cases hpub : env.publishResult ⟨msg.eventJSON, env.now⟩ <;>
      simp [RelayHandler.serveClientEventMsgJSON, RelayHandler.NewEvent, h, hv, hpub]

/-- C2 witness: the theorem instantiated at a concrete environment and event. -/
theorem event_save_before_publish_witness :
    testEnv.verify ⟨3⟩ = Except.ok true ∧
    ((serveClientEventMsgJSON testEnv ⟨⟨3⟩⟩).1 =
      [Action.save ⟨⟨3⟩, 0⟩, Action.publish ⟨⟨3⟩, 0⟩] ∧
     (testEnv.validCreatedAt (RelayHandler.NewEvent ⟨3⟩ 0) = true →
       (RelayHandler.serveClientEventMsgJSON testEnv ⟨⟨3⟩⟩).1 =
         [Action.save ⟨⟨3⟩, 0⟩, Action.publish ⟨⟨3⟩, 0⟩])) :=
  ⟨by decide, event_save_before_publish testEnv ⟨⟨3⟩⟩ (by decide)⟩

/-- C3 counterexample: a REQ carrying 51 filters - more than
`MaxFilterLen = 50` - is accepted, its replay frames are enqueued and its
EOSE frame is sent, because the code compares against `MaxFilterLen + 2`. -/
theorem req_51_filters_accepted :
    MaxFilterLen < (NewFiltersFromFilterJSONs (List.replicate 51 ⟨0⟩)).length ∧
    (serveClientReqMsgJSON testEnv "c" ⟨"s", List.replicate 51 ⟨0⟩⟩).2 = none ∧
    Action.send (ServerMsg.eose "s") ∈
      (serveClientReqMsgJSON testEnv "c" ⟨"s", List.replicate 51 ⟨0⟩⟩).1 := by
  decide

/-- C3 amended: `serveClientReqMsgJSON` rejects a REQ (error, no frame
enqueued) exactly when the filter set holds more than `MaxFilterLen + 2 = 52`
filters, and accepts (returns `nil`) any filter set of at most 52 filters. -/
theorem req_filter_cap (env : Env) (connID : String) (msg : ClientReqMsgJSON) :
    (MaxFilterLen + 2 < (NewFiltersFromFilterJSONs msg.filterJSONs).length →
      serveClientReqMsgJSON env connID msg = ([], some "filter is too long")) ∧
    ((NewFiltersFromFilterJSONs msg.filterJSONs).length ≤ MaxFilterLen + 2 →
      (serveClientReqMsgJSON env connID msg).2 = none) := by
  constructor
  · intro hlong
    simp [serveClientReqMsgJSON, hlong]
  · intro hok
    simp [serveClientReqMsgJSON, Nat.not_lt.mpr hok]

/-- C3 witness: a 53-filter REQ is rejected with no enqueued frame; a
1-filter REQ is accepted. -/
theorem req_filter_cap_witness :
    serveClientReqMsgJSON testEnv "c" ⟨"s", List.replicate 53 ⟨0⟩⟩ =
      ([], some "filter is too long") ∧
    (serveClientReqMsgJSON testEnv "c" ⟨"s", [⟨0⟩]⟩).2 = none :=
  ⟨(req_filter_cap testEnv "c" ⟨"s", List.replicate 53 ⟨0⟩⟩).1 (by decide),
   (req_filter_cap testEnv "c" ⟨"s", [⟨0⟩]⟩).2 (by decide)⟩

/-- C4: an inbound EVENT whose signature verification does not return
`(true, nil)` performs no cache save, no router publish, and no sink
enqueue, and the receive loop continues with the next frame. -/
theorem invalid_signature_skipped (env : Env) (connID : String) (frame : WSFrame)
    (payload : List Nat) (msg : ClientEventMsgJSON)
    (hread : wsRead env.maxClientMesLen (Except.ok frame) = Except.ok payload)
    (hutf : env.utf8Valid payload = true)
    (hparse : env.parseClientMsgJSON payload =
      Except.ok (ClientMsgJSON.event msg))
    (hver : env.verify msg.eventJSON ≠ Except.ok true) :
    (serveClientEventMsgJSON env msg).1 = [] ∧
    (serveClientEventMsgJSON env msg).2.isSome = true ∧
    wsReceiverStep env connID (Except.ok frame) = StepResult.next [] := by
  have hserve : (serveClientEventMsgJSON env msg).1 = [] ∧
      (serveClientEventMsgJSON env msg).2.isSome = true := by
    cases hv : env.verify msg.eventJSON with
    | error e => simp [serveClientEventMsgJSON, hv]
    | ok b =>
      cases b with
      | false => simp [serveClientEventMsgJSON, hv]
      | true => exact absurd hv hver
  refine ⟨hserve.1, hserve.2, ?_⟩
  simp [wsReceiverStep, hread, hutf, hparse, hserve.1]

/-- C4 witness: a frame parsing to an event whose signature is invalid is
skipped and the loop continues. -/
theorem invalid_signature_skipped_witness :
    (serveClientEventMsgJSON testEnv ⟨⟨9⟩⟩).1 = [] ∧
    (serveClientEventMsgJSON testEnv ⟨⟨9⟩⟩).2.isSome = true ∧
    wsReceiverStep testEnv "c" (Except.ok ⟨OpCode.opText, [4]⟩) =
      StepResult.next [] :=
  invalid_signature_skipped testEnv "c" ⟨OpCode.opText, [4]⟩ [4] ⟨⟨9⟩⟩
    (by decide) (by decide) (by decide) (by decide)

/-- C5 counterexample: the plain `serveClientEventMsgJSON` performs no
`created_at` sanity check: an event whose `created_at` is invalid
(`ValidCreatedAt` is `false`) but whose signature verifies is still passed
to `Cache.Save` and `Router.Publish`. -/
theorem invalid_created_at_saved_anyway :
    testEnv.validCreatedAt ⟨⟨7⟩, 0⟩ = false ∧
    (serveClientEventMsgJSON testEnv ⟨⟨7⟩⟩).1 =
      [Action.save ⟨⟨7⟩, 0⟩, Action.publish ⟨⟨7⟩, 0⟩] := by
  decide

/-- C5 amended: only the `RelayHandler` version checks `created_at` sanity -
after signature verification and before saving, an event failing
`ValidCreatedAt` is rejected with an error and never saved or published -
while the plain `serveClientEventMsgJSON` saves and publishes every event
that passes signature verification, with no `created_at` check. -/
theorem created_at_checked_only_by_relayhandler (env : Env)
    (msg : ClientEventMsgJSON)
    (hver : env.verify msg.eventJSON = Except.ok true)
    (hbad : env.validCreatedAt (RelayHandler.NewEvent msg.eventJSON env.now) = false) :
    RelayHandler.serveClientEventMsgJSON env msg = ([], some "invalid created_at") ∧
    (serveClientEventMsgJSON env msg).1 =
      [Action.save ⟨msg.eventJSON, env.now⟩,
       Action.publish ⟨msg.eventJSON, env.now⟩] := by
  constructor
  · simp only [RelayHandler.NewEvent] at hbad
    simp [RelayHandler.serveClientEventMsgJSON, RelayHandler.NewEvent, hver, hbad]
  · cases hpub : env.publishResult ⟨msg.eventJSON, env.now⟩ <;>
      simp [serveClientEventMsgJSON, hver, hpub]

/-- C5 witness: a concrete event with invalid `created_at` is rejected by the
`RelayHandler` version and saved anyway by the plain version. -/
theorem created_at_checked_only_by_relayhandler_witness :
    RelayHandler.serveClientEventMsgJSON testEnv ⟨⟨7⟩⟩ =
      ([], some "invalid created_at") ∧
    (serveClientEventMsgJSON testEnv ⟨⟨7⟩⟩).1 =
      [Action.save ⟨⟨7⟩, 0⟩, Action.publish ⟨⟨7⟩, 0⟩] :=
  created_at_checked_only_by_relayhandler testEnv ⟨⟨7⟩⟩ (by decide) (by decide)

/-- C6: a non-close frame whose payload exceeds `MaxClientMesLen` makes
`wsRead` return an error and the receive loop return (closing the
connection); a payload of at most `MaxClientMesLen` bytes is returned whole
with no error; the default limit is 1048576 bytes. -/
theorem oversized_frame_closes_connection (env : Env) (connID : String)
    (frame : WSFrame) (hop : frame.opCode ≠ OpCode.opClose) :
    (env.maxClientMesLen < frame.payload.length →
      wsRead env.maxClientMesLen (Except.ok frame) =
        Except.error "websocket message is too long" ∧
      wsReceiverStep env connID (Except.ok frame) =
        StepResult.exit "websocket message is too long") ∧
    (frame.payload.length ≤ env.maxClientMesLen →
      wsRead env.maxClientMesLen (Except.ok frame) =
        Except.ok frame.payload) ∧
    DefaultClientMsgLen = 1048576 := by
  refine ⟨?_, ?_, rfl⟩
  · intro hbig
    have hlen : (frame.payload.take (env.maxClientMesLen + 1)).length =
        env.maxClientMesLen + 1 := by
      rw [List.length_take]
      omega
    have hr : wsRead env.maxClientMesLen (Except.ok frame) =
        Except.error "websocket message is too long" := by
      simp [wsRead, hop, hlen]
    exact ⟨hr, by simp [wsReceiverStep, hr]⟩
  · intro hsmall
    have htake : frame.payload.take (env.maxClientMesLen + 1) = frame.payload :=
      List.take_of_length_le (by omega)
    have hne : frame.payload.length ≠ env.maxClientMesLen + 1 := by omega
    simp [wsRead, hop, htake, hne]

/-- C6 witness: with limit 5, a 6-byte frame closes the connection and a
1-byte frame is read whole. -/
theorem oversized_frame_closes_connection_witness :
    (wsRead testEnv.maxClientMesLen
        (Except.ok ⟨OpCode.opText, [1, 2, 3, 4, 5, 6]⟩) =
      Except.error "websocket message is too long" ∧
     wsReceiverStep testEnv "c" (Except.ok ⟨OpCode.opText, [1, 2, 3, 4, 5, 6]⟩) =
      StepResult.exit "websocket message is too long") ∧
    wsRead testEnv.maxClientMesLen (Except.ok ⟨OpCode.opText, [3]⟩) =
      Except.ok [3] :=
  ⟨(oversized_frame_closes_connection testEnv "c"
      ⟨OpCode.opText, [1, 2, 3, 4, 5, 6]⟩ (by decide)).1 (by decide),
   (oversized_frame_closes_connection testEnv "c"
      ⟨OpCode.opText, [3]⟩ (by decide)).2.1 (by decide)⟩

/-- C7 counterexample: the `main.go` entry point creates the event store
with `NewDB(5)` - a hardcoded capacity of 5, not the configurable default
of 10000. -/
theorem main_run_capacity_not_default :
    mainRunDBCapacity = 5 ∧ mainRunDBCapacity ≠ DefaultDBSize := by
  decide

/-- C7 amended: the flag-based `Run` creates the event store with the
configurable `db` flag capacity, whose default is `DefaultDBSize = 10000`,
while the `Run` in `main.go` creates it with the fixed capacity 5. -/
theorem db_capacity_configurable :
    relayRunDBCapacity DBSizeFlagDefault = 10000 ∧
    (∀ n : Nat, relayRunDBCapacity n = n) ∧
    mainRunDBCapacity = 5 :=
  ⟨rfl, fun _ => rfl, rfl⟩

/-- C8: a frame whose payload fails `ParseClientMsgJSON` is skipped: no
action is performed (no cache, router, or sink operation) and the receive
loop continues with the connection open. -/
theorem malformed_frame_skipped (env : Env) (connID : String) (frame : WSFrame)
    (payload : List Nat) (e : String)
    (hread : wsRead env.maxClientMesLen (Except.ok frame) = Except.ok payload)
    (hutf : env.utf8Valid payload = true)
    (hparse : env.parseClientMsgJSON payload = Except.error e) :
    wsReceiverStep env connID (Except.ok frame) = StepResult.next [] := by
  simp [wsReceiverStep, hread, hutf, hparse]

/-- C8 witness: a concrete unparseable frame is skipped. -/
theorem malformed_frame_skipped_witness :
    wsReceiverStep testEnv "c" (Except.ok ⟨OpCode.opText, [9]⟩) =
      StepResult.next [] :=
  malformed_frame_skipped testEnv "c" ⟨OpCode.opText, [9]⟩ [9] "invalid msg"
    (by decide) (by decide) (by decide)

/-- C9: when `Router.Subscribe` fails during REQ handling, the replay EVENT
frames and the EOSE frame have already been enqueued and remain so, and
`RelayHandler.serveClientReqMsgJSON` discards the error and returns `nil`. -/
theorem subscribe_error_discarded (env : Env) (connID : String)
    (msg : ClientReqMsgJSON) (e : String)
    (hlen : (NewFiltersFromFilterJSONs msg.filterJSONs).length ≤ MaxFilterLen + 2)
    (hsub : env.subscribeResult connID msg.subscriptionID = some e) :
    RelayHandler.serveClientReqMsgJSON env connID msg =
      ((env.findAll (NewFiltersFromFilterJSONs msg.filterJSONs)).map
          (fun ev => Action.send (NewServerEventMsg msg.subscriptionID ev))
        ++ [Action.send (NewServerEOSEMsg msg.subscriptionID),
            Action.subscribe connID msg.subscriptionID
              (NewFiltersFromFilterJSONs msg.filterJSONs)],
       none) := by
  simp [RelayHandler.serveClientReqMsgJSON, Nat.not_lt.mpr hlen, hsub]

/-- C9 witness: with a router that always refuses subscriptions, the REQ
handler still enqueues replay and EOSE frames and reports no error. -/
theorem subscribe_error_discarded_witness :
    RelayHandler.serveClientReqMsgJSON testEnv "c" ⟨"a", [⟨0⟩]⟩ =
      ((testEnv.findAll (NewFiltersFromFilterJSONs [⟨0⟩])).map
          (fun ev => Action.send (NewServerEventMsg "a" ev))
        ++ [Action.send (NewServerEOSEMsg "a"),
            Action.subscribe "c" "a" (NewFiltersFromFilterJSONs [⟨0⟩])],
       none) :=
  subscribe_error_discarded testEnv "c" ⟨"a", [⟨0⟩]⟩ "too many subscriptions"
    (by decide) (by decide)

/-- C10: a frame whose payload is not valid UTF-8 is skipped before parsing:
the receive loop performs no action - nothing reaches the cache, router, or
sink, for any parser whatsoever since the environment is arbitrary - and
continues with the connection open. -/
theorem non_utf8_frame_skipped (env : Env) (connID : String) (frame : WSFrame)
    (payload : List Nat)
    (hread : wsRead env.maxClientMesLen (Except.ok frame) = Except.ok payload)
    (hutf : env.utf8Valid payload = false) :
    wsReceiverStep env connID (Except.ok frame) = StepResult.next [] := by
  simp [wsReceiverStep, hread, hutf]

/-- C10 witness: a concrete non-UTF-8 frame is skipped. -/
theorem non_utf8_frame_skipped_witness :
    wsReceiverStep testEnv "c" (Except.ok ⟨OpCode.opText, [255]⟩) =
      StepResult.next [] :=
  non_utf8_frame_skipped testEnv "c" ⟨OpCode.opText, [255]⟩ [255]
    (by decide) (by decide)

end Mocrelay
